import Mathlib

/-!
Shallow embedding of the vehicle class hierarchy declared in
`src/examples/cpp/vehicle.h`.

The repository ships only the header: every method is declared but no body
is present under `src/`.  Following the specification, each method body is
therefore modelled from the words of the spec; every such definition carries
a doc comment starting with `Modelled from the spec:` naming what is missing.
The C++ type `double` is embedded as `ℚ` (the only numeric behaviour the
spec gives is exact addition of an amount, which `ℚ` represents exactly),
`int` as `Int`, `std::string` as `String`, `bool` as `Bool`.

C++ inheritance is embedded by composition: a `Car` holds its `Vehicle`
base part in the field `toVehicle`, and an `ElectricCar` holds its `Car`
base part in `toCar`; the inherited methods are lifted through these fields.
Accessor methods are declared `const` in the header; each accessor is
embedded as a function returning the value together with the post-state of
the object, so that frame effects (the object is left unchanged) are
statable and provable rather than built in silently.
-/

namespace VehicleHierarchy

/-- Base class `Vehicle` of `vehicle.h` (lines 11-31): private fields
`model`, `year`, `color` and the protected field `currentSpeed`. -/
structure Vehicle where
  model : String
  year : Int
  color : String
  currentSpeed : ℚ
deriving DecidableEq

/-- Modelled from the spec: the body of the constructor `Vehicle(m, y, c)`
is not under `src/` (the header only declares it).  Per the spec every field
is set at construction; the vehicle is created at rest, `currentSpeed = 0`. -/
def Vehicle.construct (m : String) (y : Int) (c : String) : Vehicle :=
  { model := m, year := y, color := c, currentSpeed := 0 }

/-- Modelled from the spec: `Vehicle::accelerate(amount)` "increases
`currentSpeed` by `amount`"; section 8 of the spec assumes no clamping.
The body is absent from `src/`. -/
def Vehicle.accelerate (amount : ℚ) (v : Vehicle) : Vehicle :=
  { v with currentSpeed := v.currentSpeed + amount }

/-- Modelled from the spec: `Vehicle::getModel() const` returns the `model`
field.  The `const` qualifier in the header means the object is unchanged;
the post-state is returned alongside the value. -/
def Vehicle.getModel (v : Vehicle) : String × Vehicle := (v.model, v)

/-- Modelled from the spec: `Vehicle::getYear() const` returns `year`. -/
def Vehicle.getYear (v : Vehicle) : Int × Vehicle := (v.year, v)

/-- Modelled from the spec: `Vehicle::getCurrentSpeed() const` returns
`currentSpeed`. -/
def Vehicle.getCurrentSpeed (v : Vehicle) : ℚ × Vehicle := (v.currentSpeed, v)

/-- Class `Car` of `vehicle.h` (lines 33-47): inherits `Vehicle`, adds the
private fields `numberOfDoors` and `numberOfSeats`. -/
structure Car where
  toVehicle : Vehicle
  numberOfDoors : Int
  numberOfSeats : Int
deriving DecidableEq

/-- Modelled from the spec: the constructor `Car(m, y, c, doors, seats)`
initialises the base part and sets the door and seat counts, which stay
fixed from construction on. -/
def Car.construct (m : String) (y : Int) (c : String) (doors seats : Int) : Car :=
  { toVehicle := Vehicle.construct m y c, numberOfDoors := doors, numberOfSeats := seats }

/-- Modelled from the spec: `Car::start` has variant-specific behaviour that
is unspecified, but the lifecycle section of the spec limits field mutation
to `currentSpeed` (via accelerate) and `currentCharge` (via charge), so
`start` leaves every field unchanged. -/
def Car.start (c : Car) : Car := c

/-- Modelled from the spec: `Car::stop`, field-preserving for the same
reason as `Car.start`. -/
def Car.stop (c : Car) : Car := c

/-- The inherited `accelerate`, acting on the `Vehicle` base part of a `Car`. -/
def Car.accelerate (amount : ℚ) (c : Car) : Car :=
  { c with toVehicle := c.toVehicle.accelerate amount }

/-- The inherited `getModel`, lifted through the base part. -/
def Car.getModel (c : Car) : String × Car :=
  ((c.toVehicle.getModel).1, { c with toVehicle := (c.toVehicle.getModel).2 })

/-- The inherited `getYear`, lifted through the base part. -/
def Car.getYear (c : Car) : Int × Car :=
  ((c.toVehicle.getYear).1, { c with toVehicle := (c.toVehicle.getYear).2 })

/-- The inherited `getCurrentSpeed`, lifted through the base part. -/
def Car.getCurrentSpeed (c : Car) : ℚ × Car :=
  ((c.toVehicle.getCurrentSpeed).1, { c with toVehicle := (c.toVehicle.getCurrentSpeed).2 })

/-- Modelled from the spec: `Car::getNumberOfDoors() const` returns the
fixed door count. -/
def Car.getNumberOfDoors (c : Car) : Int × Car := (c.numberOfDoors, c)

/-- Modelled from the spec: `Car::getNumberOfSeats() const` returns the
fixed seat count. -/
def Car.getNumberOfSeats (c : Car) : Int × Car := (c.numberOfSeats, c)

/-- Class `Motorcycle` of `vehicle.h` (lines 49-62): inherits `Vehicle`,
adds the private field `hasSidecar`. -/
structure Motorcycle where
  toVehicle : Vehicle
  hasSidecar : Bool
deriving DecidableEq

/-- Modelled from the spec: the constructor `Motorcycle(m, y, c, sidecar)`
initialises the base part and the fixed sidecar flag. -/
def Motorcycle.construct (m : String) (y : Int) (c : String) (sidecar : Bool) : Motorcycle :=
  { toVehicle := Vehicle.construct m y c, hasSidecar := sidecar }

/-- Modelled from the spec: `Motorcycle::start`, field-preserving (mutation
is limited to `currentSpeed` and `currentCharge` by the lifecycle section). -/
def Motorcycle.start (m : Motorcycle) : Motorcycle := m

/-- Modelled from the spec: `Motorcycle::stop`, field-preserving. -/
def Motorcycle.stop (m : Motorcycle) : Motorcycle := m

/-- The inherited `accelerate`, acting on the `Vehicle` base part. -/
def Motorcycle.accelerate (amount : ℚ) (m : Motorcycle) : Motorcycle :=
  { m with toVehicle := m.toVehicle.accelerate amount }

/-- The inherited `getModel`, lifted through the base part. -/
def Motorcycle.getModel (m : Motorcycle) : String × Motorcycle :=
  ((m.toVehicle.getModel).1, { m with toVehicle := (m.toVehicle.getModel).2 })

/-- The inherited `getYear`, lifted through the base part. -/
def Motorcycle.getYear (m : Motorcycle) : Int × Motorcycle :=
  ((m.toVehicle.getYear).1, { m with toVehicle := (m.toVehicle.getYear).2 })

/-- The inherited `getCurrentSpeed`, lifted through the base part. -/
def Motorcycle.getCurrentSpeed (m : Motorcycle) : ℚ × Motorcycle :=
  ((m.toVehicle.getCurrentSpeed).1, { m with toVehicle := (m.toVehicle.getCurrentSpeed).2 })

/-- Modelled from the spec: `Motorcycle::getHasSidecar() const` returns the
fixed sidecar flag. -/
def Motorcycle.getHasSidecar (m : Motorcycle) : Bool × Motorcycle := (m.hasSidecar, m)

/-- Class `ElectricCar` of `vehicle.h` (lines 64-78): inherits `Car`, adds
the private fields `batteryCapacity` and `currentCharge`. -/
structure ElectricCar where
  toCar : Car
  batteryCapacity : ℚ
  currentCharge : ℚ
deriving DecidableEq

/-- Modelled from the spec: the body of
`ElectricCar(m, y, c, doors, seats, capacity)` is absent from `src/`.  The
header shows that the constructor takes no initial-charge argument; the spec
says `getBatteryLevel()` initially reflects a "charge state consistent with"
the given capacity, and forbids guessing the exact formula, so the initial
charge is modelled as an unspecified function `initCharge` of the capacity
alone, passed as a parameter of the embedding. -/
def ElectricCar.construct (initCharge : ℚ → ℚ) (m : String) (y : Int) (c : String)
    (doors seats : Int) (capacity : ℚ) : ElectricCar :=
  { toCar := Car.construct m y c doors seats,
    batteryCapacity := capacity,
    currentCharge := initCharge capacity }

/-- Modelled from the spec: `ElectricCar::charge(amount)` "increases
`currentCharge`"; the spec states that the `batteryCapacity` bound is
implied but not enforced, so no clamping is performed. -/
def ElectricCar.charge (amount : ℚ) (e : ElectricCar) : ElectricCar :=
  { e with currentCharge := e.currentCharge + amount }

/-- Modelled from the spec: `ElectricCar::getRemainingRange() const` is
"derived from `currentCharge`/`batteryCapacity` via an unspecified formula"
that must not be guessed; the formula is therefore a parameter `f`. -/
def ElectricCar.getRemainingRange (f : ℚ → ℚ → ℚ) (e : ElectricCar) : ℚ × ElectricCar :=
  (f e.currentCharge e.batteryCapacity, e)

/-- Modelled from the spec: `ElectricCar::getBatteryLevel() const`, likewise
derived from `currentCharge` and `batteryCapacity` via an unspecified
formula `g`. -/
def ElectricCar.getBatteryLevel (g : ℚ → ℚ → ℚ) (e : ElectricCar) : ℚ × ElectricCar :=
  (g e.currentCharge e.batteryCapacity, e)

/-- The `start` inherited from `Car` (the header declares no override on
`ElectricCar`), acting on the `Car` base part. -/
def ElectricCar.start (e : ElectricCar) : ElectricCar :=
  { e with toCar := e.toCar.start }

/-- The `stop` inherited from `Car`, acting on the `Car` base part. -/
def ElectricCar.stop (e : ElectricCar) : ElectricCar :=
  { e with toCar := e.toCar.stop }

/-- The inherited `accelerate`, acting on the `Car` base part. -/
def ElectricCar.accelerate (amount : ℚ) (e : ElectricCar) : ElectricCar :=
  { e with toCar := e.toCar.accelerate amount }

/-- The inherited `getModel`, lifted through the base part. -/
def ElectricCar.getModel (e : ElectricCar) : String × ElectricCar :=
  ((e.toCar.getModel).1, { e with toCar := (e.toCar.getModel).2 })

/-- The inherited `getYear`, lifted through the base part. -/
def ElectricCar.getYear (e : ElectricCar) : Int × ElectricCar :=
  ((e.toCar.getYear).1, { e with toCar := (e.toCar.getYear).2 })

/-- The inherited `getCurrentSpeed`, lifted through the base part. -/
def ElectricCar.getCurrentSpeed (e : ElectricCar) : ℚ × ElectricCar :=
  ((e.toCar.getCurrentSpeed).1, { e with toCar := (e.toCar.getCurrentSpeed).2 })

/-- The inherited `getNumberOfDoors`, lifted through the base part. -/
def ElectricCar.getNumberOfDoors (e : ElectricCar) : Int × ElectricCar :=
  ((e.toCar.getNumberOfDoors).1, { e with toCar := (e.toCar.getNumberOfDoors).2 })

/-- The inherited `getNumberOfSeats`, lifted through the base part. -/
def ElectricCar.getNumberOfSeats (e : ElectricCar) : Int × ElectricCar :=
  ((e.toCar.getNumberOfSeats).1, { e with toCar := (e.toCar.getNumberOfSeats).2 })

/-- A value returned by a method of the hierarchy, as seen by a caller. -/
inductive Value where
  | str (s : String)
  | int (i : Int)
  | rat (q : ℚ)
  | boolean (b : Bool)
deriving DecidableEq

/-- The methods callable on a `Car`. -/
inductive CarOp where
  | start
  | stop
  | accelerate (amount : ℚ)
  | getModel
  | getYear
  | getCurrentSpeed
  | getNumberOfDoors
  | getNumberOfSeats
deriving DecidableEq

/-- The methods callable on a `Motorcycle`. -/
inductive MotorcycleOp where
  | start
  | stop
  | accelerate (amount : ℚ)
  | getModel
  | getYear
  | getCurrentSpeed
  | getHasSidecar
deriving DecidableEq

/-- The methods callable on an `ElectricCar`. -/
inductive ElectricCarOp where
  | start
  | stop
  | accelerate (amount : ℚ)
  | getModel
  | getYear
  | getCurrentSpeed
  | getNumberOfDoors
  | getNumberOfSeats
  | charge (amount : ℚ)
  | getRemainingRange
  | getBatteryLevel
deriving DecidableEq

/-- Modelled from the spec: uniform invocation of a `Car` method as an
external caller sees it, returning the post-state and the returned value,
or an error message.  The spec declares no error conditions for any method
("No method signals failure"), so every case yields `.ok`. -/
def Car.invoke : CarOp → Car → Except String (Car × Option Value)
  | .start, c => .ok (c.start, none)
  | .stop, c => .ok (c.stop, none)
  | .accelerate a, c => .ok (c.accelerate a, none)
  | .getModel, c => .ok ((c.getModel).2, some (.str (c.getModel).1))
  | .getYear, c => .ok ((c.getYear).2, some (.int (c.getYear).1))
  | .getCurrentSpeed, c => .ok ((c.getCurrentSpeed).2, some (.rat (c.getCurrentSpeed).1))
  | .getNumberOfDoors, c => .ok ((c.getNumberOfDoors).2, some (.int (c.getNumberOfDoors).1))
  | .getNumberOfSeats, c => .ok ((c.getNumberOfSeats).2, some (.int (c.getNumberOfSeats).1))

/-- Modelled from the spec: uniform invocation of a `Motorcycle` method; no
method signals failure, so every case yields `.ok`. -/
def Motorcycle.invoke : MotorcycleOp → Motorcycle → Except String (Motorcycle × Option Value)
  | .start, m => .ok (m.start, none)
  | .stop, m => .ok (m.stop, none)
  | .accelerate a, m => .ok (m.accelerate a, none)
  | .getModel, m => .ok ((m.getModel).2, some (.str (m.getModel).1))
  | .getYear, m => .ok ((m.getYear).2, some (.int (m.getYear).1))
  | .getCurrentSpeed, m => .ok ((m.getCurrentSpeed).2, some (.rat (m.getCurrentSpeed).1))
  | .getHasSidecar, m => .ok ((m.getHasSidecar).2, some (.boolean (m.getHasSidecar).1))

/-- Modelled from the spec: uniform invocation of an `ElectricCar` method;
`f` and `g` are the unspecified formulas behind `getRemainingRange` and
`getBatteryLevel`.  No method signals failure, so every case yields `.ok`. -/
def ElectricCar.invoke (f g : ℚ → ℚ → ℚ) :
    ElectricCarOp → ElectricCar → Except String (ElectricCar × Option Value)
  | .start, e => .ok (e.start, none)
  | .stop, e => .ok (e.stop, none)
  | .accelerate a, e => .ok (e.accelerate a, none)
  | .getModel, e => .ok ((e.getModel).2, some (.str (e.getModel).1))
  | .getYear, e => .ok ((e.getYear).2, some (.int (e.getYear).1))
  | .getCurrentSpeed, e => .ok ((e.getCurrentSpeed).2, some (.rat (e.getCurrentSpeed).1))
  | .getNumberOfDoors, e => .ok ((e.getNumberOfDoors).2, some (.int (e.getNumberOfDoors).1))
  | .getNumberOfSeats, e => .ok ((e.getNumberOfSeats).2, some (.int (e.getNumberOfSeats).1))
  | .charge a, e => .ok (e.charge a, none)
  | .getRemainingRange, e => .ok ((e.getRemainingRange f).2, some (.rat (e.getRemainingRange f).1))
  | .getBatteryLevel, e => .ok ((e.getBatteryLevel g).2, some (.rat (e.getBatteryLevel g).1))

/-- Agreement of two `Vehicle` states on every field except `currentSpeed`:
used to state frame effects of speed-mutating operations. -/
def Vehicle.sameExceptSpeed (v w : Vehicle) : Prop :=
  v.model = w.model ∧ v.year = w.year ∧ v.color = w.color

/-- Claim C1: for every Vehicle-variant object (Car, Motorcycle, or
ElectricCar) whose `currentSpeed` is s, calling `accelerate(amount)` and
then `getCurrentSpeed()` returns exactly s + amount, with no clamping. -/
theorem accelerate_then_getCurrentSpeed_adds_exactly :
    (∀ (c : Car) (a : ℚ),
      ((c.accelerate a).getCurrentSpeed).1 = (c.getCurrentSpeed).1 + a) ∧
    (∀ (m : Motorcycle) (a : ℚ),
      ((m.accelerate a).getCurrentSpeed).1 = (m.getCurrentSpeed).1 + a) ∧
    (∀ (e : ElectricCar) (a : ℚ),
      ((e.accelerate a).getCurrentSpeed).1 = (e.getCurrentSpeed).1 + a) :=
  ⟨fun _ _ => rfl, fun _ _ => rfl, fun _ _ => rfl⟩

/-- Claim C2: for every Vehicle-variant constructed with model m and year y
(and, for Car and ElectricCar, doors d and seats s), `getModel()` returns
exactly m, `getYear()` returns exactly y, `getNumberOfDoors()` returns
exactly d and `getNumberOfSeats()` returns exactly s, before any mutating
operation is applied. -/
theorem getters_return_construction_values :
    ∀ (initC : ℚ → ℚ) (m : String) (y : Int) (c : String) (d s : Int)
      (sc : Bool) (cap : ℚ),
      ((Car.construct m y c d s).getModel).1 = m ∧
      ((Car.construct m y c d s).getYear).1 = y ∧
      ((Car.construct m y c d s).getNumberOfDoors).1 = d ∧
      ((Car.construct m y c d s).getNumberOfSeats).1 = s ∧
      ((Motorcycle.construct m y c sc).getModel).1 = m ∧
      ((Motorcycle.construct m y c sc).getYear).1 = y ∧
      ((ElectricCar.construct initC m y c d s cap).getModel).1 = m ∧
      ((ElectricCar.construct initC m y c d s cap).getYear).1 = y ∧
      ((ElectricCar.construct initC m y c d s cap).getNumberOfDoors).1 = d ∧
      ((ElectricCar.construct initC m y c d s cap).getNumberOfSeats).1 = s :=
  fun _ _ _ _ _ _ _ _ =>
    ⟨rfl, rfl, rfl, rfl, rfl, rfl, rfl, rfl, rfl, rfl⟩

/-- Claim C3: for every ElectricCar constructed with capacity C,
`getBatteryLevel()` called immediately after construction returns the value
of the (unspecified) formula applied to the construction-time charge: the
initial charge state is fixed at construction (`initC cap`) and is
observable through `getBatteryLevel()`. -/
theorem getBatteryLevel_reflects_construction_charge :
    ∀ (initC : ℚ → ℚ) (g : ℚ → ℚ → ℚ) (m : String) (y : Int) (c : String)
      (d s : Int) (cap : ℚ),
      (ElectricCar.construct initC m y c d s cap).currentCharge = initC cap ∧
      ((ElectricCar.construct initC m y c d s cap).getBatteryLevel g).1
        = g (initC cap) cap :=
  fun _ _ _ _ _ _ _ _ => ⟨rfl, rfl⟩

/-- Claim C4, counterexample: an ElectricCar constructed with capacity 75
satisfies 0 ≤ currentCharge ≤ batteryCapacity, yet `charge(100)` leaves it
with currentCharge = 100 > 75 = batteryCapacity: the invariant is not
preserved for every amount. -/
theorem charge_can_exceed_capacity :
    (0 ≤ (ElectricCar.construct (fun _ => 0) "Tesla" 2024 "White" 4 5 75).currentCharge ∧
      (ElectricCar.construct (fun _ => 0) "Tesla" 2024 "White" 4 5 75).currentCharge ≤
        (ElectricCar.construct (fun _ => 0) "Tesla" 2024 "White" 4 5 75).batteryCapacity) ∧
    ¬ (((ElectricCar.construct (fun _ => 0) "Tesla" 2024 "White" 4 5 75).charge 100).currentCharge ≤
        ((ElectricCar.construct (fun _ => 0) "Tesla" 2024 "White" 4 5 75).charge 100).batteryCapacity) := by
  norm_num [ElectricCar.construct, ElectricCar.charge, Car.construct, Vehicle.construct]

/-- Claim C4 as amended: for every ElectricCar satisfying
0 ≤ currentCharge ≤ batteryCapacity and every amount such that the updated
charge currentCharge + amount still lies within [0, batteryCapacity],
calling `charge(amount)` leaves the object again satisfying
0 ≤ currentCharge ≤ batteryCapacity. -/
theorem charge_preserves_invariant_of_bounded_amount :
    ∀ (e : ElectricCar) (a : ℚ),
      0 ≤ e.currentCharge → e.currentCharge ≤ e.batteryCapacity →
      0 ≤ e.currentCharge + a → e.currentCharge + a ≤ e.batteryCapacity →
      0 ≤ (e.charge a).currentCharge ∧
        (e.charge a).currentCharge ≤ (e.charge a).batteryCapacity :=
  fun _ _ _ _ h₂ h₃ => ⟨h₂, h₃⟩

/-- Witness for the amended claim C4 at a concrete input: capacity 75,
charge 10, amount 30. -/
theorem charge_preserves_invariant_of_bounded_amount_witness :
    0 ≤ ((ElectricCar.construct (fun _ => 10) "Tesla" 2024 "White" 4 5 75).charge 30).currentCharge ∧
      ((ElectricCar.construct (fun _ => 10) "Tesla" 2024 "White" 4 5 75).charge 30).currentCharge ≤
        ((ElectricCar.construct (fun _ => 10) "Tesla" 2024 "White" 4 5 75).charge 30).batteryCapacity :=
  charge_preserves_invariant_of_bounded_amount
    (ElectricCar.construct (fun _ => 10) "Tesla" 2024 "White" 4 5 75) 30
    (by norm_num [ElectricCar.construct]) (by norm_num [ElectricCar.construct])
    (by norm_num [ElectricCar.construct]) (by norm_num [ElectricCar.construct])

/-- Claim C5, counterexample: a freshly constructed Car has speed 0, and
`accelerate(-1)` leaves its `currentSpeed` at -1 < 0: the claimed
nonnegativity does not hold for every amount. -/
theorem accelerate_can_make_speed_negative :
    (((Car.construct "Model X" 2023 "Red" 4 5).accelerate (-1)).getCurrentSpeed).1 < 0 := by
  norm_num [Car.construct, Vehicle.construct, Car.accelerate, Vehicle.accelerate,
    Car.getCurrentSpeed, Vehicle.getCurrentSpeed]

/-- Claim C5 as amended: for every Vehicle-variant whose current speed s and
every amount with s + amount ≥ 0, after `accelerate(amount)` completes the
currentSpeed is ≥ 0. -/
theorem accelerate_keeps_speed_nonneg_of_bounded_amount :
    (∀ (c : Car) (a : ℚ), 0 ≤ (c.getCurrentSpeed).1 + a →
      0 ≤ ((c.accelerate a).getCurrentSpeed).1) ∧
    (∀ (m : Motorcycle) (a : ℚ), 0 ≤ (m.getCurrentSpeed).1 + a →
      0 ≤ ((m.accelerate a).getCurrentSpeed).1) ∧
    (∀ (e : ElectricCar) (a : ℚ), 0 ≤ (e.getCurrentSpeed).1 + a →
      0 ≤ ((e.accelerate a).getCurrentSpeed).1) :=
  ⟨fun _ _ h => h, fun _ _ h => h, fun _ _ h => h⟩

/-- Witness for the amended claim C5 at concrete inputs: a fresh Car, a
fresh Motorcycle and a fresh ElectricCar accelerated by 5 each end with a
nonnegative speed. -/
theorem accelerate_keeps_speed_nonneg_of_bounded_amount_witness :
    0 ≤ (((Car.construct "Model X" 2023 "Red" 4 5).accelerate 5).getCurrentSpeed).1 ∧
    0 ≤ (((Motorcycle.construct "Harley" 2020 "Black" true).accelerate 5).getCurrentSpeed).1 ∧
    0 ≤ (((ElectricCar.construct (fun _ => 0) "Tesla" 2024 "White" 4 5 75).accelerate 5).getCurrentSpeed).1 :=
  ⟨accelerate_keeps_speed_nonneg_of_bounded_amount.1
      (Car.construct "Model X" 2023 "Red" 4 5) 5
      (by norm_num [Car.construct, Vehicle.construct, Car.getCurrentSpeed, Vehicle.getCurrentSpeed]),
    accelerate_keeps_speed_nonneg_of_bounded_amount.2.1
      (Motorcycle.construct "Harley" 2020 "Black" true) 5
      (by norm_num [Motorcycle.construct, Vehicle.construct, Motorcycle.getCurrentSpeed,
        Vehicle.getCurrentSpeed]),
    accelerate_keeps_speed_nonneg_of_bounded_amount.2.2
      (ElectricCar.construct (fun _ => 0) "Tesla" 2024 "White" 4 5 75) 5
      (by norm_num [ElectricCar.construct, Car.construct, Vehicle.construct,
        ElectricCar.getCurrentSpeed, Car.getCurrentSpeed, Vehicle.getCurrentSpeed])⟩

/-- Claim C6: across every operation of each capability set, the only
fields that can change after construction are `currentSpeed` (changed only
by `accelerate`) and, for ElectricCar, `currentCharge` (changed only by
`charge`); `model`, `year`, `color`, `numberOfDoors`, `numberOfSeats`,
`hasSidecar` and `batteryCapacity` keep their values. -/
theorem only_speed_and_charge_mutate :
    (∀ (c : Car) (a : ℚ),
      Vehicle.sameExceptSpeed (c.accelerate a).toVehicle c.toVehicle ∧
      (c.accelerate a).numberOfDoors = c.numberOfDoors ∧
      (c.accelerate a).numberOfSeats = c.numberOfSeats ∧
      c.start = c ∧ c.stop = c ∧
      (c.getModel).2 = c ∧ (c.getYear).2 = c ∧ (c.getCurrentSpeed).2 = c ∧
      (c.getNumberOfDoors).2 = c ∧ (c.getNumberOfSeats).2 = c) ∧
    (∀ (m : Motorcycle) (a : ℚ),
      Vehicle.sameExceptSpeed (m.accelerate a).toVehicle m.toVehicle ∧
      (m.accelerate a).hasSidecar = m.hasSidecar ∧
      m.start = m ∧ m.stop = m ∧
      (m.getModel).2 = m ∧ (m.getYear).2 = m ∧ (m.getCurrentSpeed).2 = m ∧
      (m.getHasSidecar).2 = m) ∧
    (∀ (e : ElectricCar) (a : ℚ) (f g : ℚ → ℚ → ℚ),
      Vehicle.sameExceptSpeed (e.accelerate a).toCar.toVehicle e.toCar.toVehicle ∧
      (e.accelerate a).toCar.numberOfDoors = e.toCar.numberOfDoors ∧
      (e.accelerate a).toCar.numberOfSeats = e.toCar.numberOfSeats ∧
      (e.accelerate a).batteryCapacity = e.batteryCapacity ∧
      (e.accelerate a).currentCharge = e.currentCharge ∧
      (e.charge a).toCar = e.toCar ∧
      (e.charge a).batteryCapacity = e.batteryCapacity ∧
      e.start = e ∧ e.stop = e ∧
      (e.getModel).2 = e ∧ (e.getYear).2 = e ∧ (e.getCurrentSpeed).2 = e ∧
      (e.getNumberOfDoors).2 = e ∧ (e.getNumberOfSeats).2 = e ∧
      (e.getRemainingRange f).2 = e ∧ (e.getBatteryLevel g).2 = e) :=
  ⟨fun _ _ => ⟨⟨rfl, rfl, rfl⟩, rfl, rfl, rfl, rfl, rfl, rfl, rfl, rfl, rfl⟩,
    fun _ _ => ⟨⟨rfl, rfl, rfl⟩, rfl, rfl, rfl, rfl, rfl, rfl, rfl⟩,
    fun _ _ _ _ => ⟨⟨rfl, rfl, rfl⟩, rfl, rfl, rfl, rfl, rfl, rfl, rfl, rfl, rfl,
      rfl, rfl, rfl, rfl, rfl, rfl⟩⟩

/-- Claim C7: no operation of any class in the hierarchy signals failure:
every method invocation on a Car, a Motorcycle or an ElectricCar (including
`start` and `stop`), with any argument and any state, yields `.ok`. -/
theorem no_method_signals_failure :
    (∀ (op : CarOp) (c : Car), ∃ r, Car.invoke op c = .ok r) ∧
    (∀ (op : MotorcycleOp) (m : Motorcycle), ∃ r, Motorcycle.invoke op m = .ok r) ∧
    (∀ (f g : ℚ → ℚ → ℚ) (op : ElectricCarOp) (e : ElectricCar),
      ∃ r, ElectricCar.invoke f g op e = .ok r) := by
  refine ⟨fun op c => ?_, fun op m => ?_, fun f g op e => ?_⟩ <;>
    cases op <;> exact ⟨_, rfl⟩

/-- Claim C8: for any two ElectricCar states that agree on `currentCharge`
and `batteryCapacity` (but may differ in any other field),
`getRemainingRange()` returns the same value in both states and
`getBatteryLevel()` returns the same value in both states; both calls leave
the object unchanged. -/
theorem battery_getters_depend_only_on_charge_and_capacity :
    ∀ (f g : ℚ → ℚ → ℚ) (e₁ e₂ : ElectricCar),
      e₁.currentCharge = e₂.currentCharge →
      e₁.batteryCapacity = e₂.batteryCapacity →
      (e₁.getRemainingRange f).1 = (e₂.getRemainingRange f).1 ∧
      (e₁.getBatteryLevel g).1 = (e₂.getBatteryLevel g).1 ∧
      (e₁.getRemainingRange f).2 = e₁ ∧ (e₁.getBatteryLevel g).2 = e₁ ∧
      (e₂.getRemainingRange f).2 = e₂ ∧ (e₂.getBatteryLevel g).2 = e₂ := by
  intro f g e₁ e₂ h₁ h₂
  exact ⟨by rw [ElectricCar.getRemainingRange, ElectricCar.getRemainingRange, h₁, h₂],
    by rw [ElectricCar.getBatteryLevel, ElectricCar.getBatteryLevel, h₁, h₂],
    rfl, rfl, rfl, rfl⟩

/-- Witness for claim C8 at concrete inputs: two ElectricCars with charge
30 and capacity 75 that differ in model, year, color, doors, seats and
speed give equal results for both battery getters. -/
theorem battery_getters_depend_only_on_charge_and_capacity_witness :
    ((⟨⟨⟨"A", 2020, "Red", 7⟩, 2, 4⟩, 75, 30⟩ : ElectricCar).getRemainingRange (fun c k => k - c)).1
      = ((⟨⟨⟨"B", 2024, "Blue", 0⟩, 4, 5⟩, 75, 30⟩ : ElectricCar).getRemainingRange (fun c k => k - c)).1 ∧
    ((⟨⟨⟨"A", 2020, "Red", 7⟩, 2, 4⟩, 75, 30⟩ : ElectricCar).getBatteryLevel (fun c k => c / k)).1
      = ((⟨⟨⟨"B", 2024, "Blue", 0⟩, 4, 5⟩, 75, 30⟩ : ElectricCar).getBatteryLevel (fun c k => c / k)).1 ∧
    ((⟨⟨⟨"A", 2020, "Red", 7⟩, 2, 4⟩, 75, 30⟩ : ElectricCar).getRemainingRange (fun c k => k - c)).2
      = (⟨⟨⟨"A", 2020, "Red", 7⟩, 2, 4⟩, 75, 30⟩ : ElectricCar) ∧
    ((⟨⟨⟨"A", 2020, "Red", 7⟩, 2, 4⟩, 75, 30⟩ : ElectricCar).getBatteryLevel (fun c k => c / k)).2
      = (⟨⟨⟨"A", 2020, "Red", 7⟩, 2, 4⟩, 75, 30⟩ : ElectricCar) ∧
    ((⟨⟨⟨"B", 2024, "Blue", 0⟩, 4, 5⟩, 75, 30⟩ : ElectricCar).getRemainingRange (fun c k => k - c)).2
      = (⟨⟨⟨"B", 2024, "Blue", 0⟩, 4, 5⟩, 75, 30⟩ : ElectricCar) ∧
    ((⟨⟨⟨"B", 2024, "Blue", 0⟩, 4, 5⟩, 75, 30⟩ : ElectricCar).getBatteryLevel (fun c k => c / k)).2
      = (⟨⟨⟨"B", 2024, "Blue", 0⟩, 4, 5⟩, 75, 30⟩ : ElectricCar) :=
  battery_getters_depend_only_on_charge_and_capacity
    (fun c k => k - c) (fun c k => c / k)
    (⟨⟨⟨"A", 2020, "Red", 7⟩, 2, 4⟩, 75, 30⟩ : ElectricCar)
    (⟨⟨⟨"B", 2024, "Blue", 0⟩, 4, 5⟩, 75, 30⟩ : ElectricCar)
    rfl rfl

/-- Claim C9: the ElectricCar constructor takes no initial-charge argument
(its parameters are model, year, color, doors, seats and capacity only), so
any two ElectricCars constructed with the same capacity have equal initial
`currentCharge`, whatever the other arguments are: the initial charge is a
function of the capacity alone. -/
theorem initial_charge_determined_by_capacity :
    ∀ (initC : ℚ → ℚ) (m₁ : String) (y₁ : Int) (c₁ : String) (d₁ s₁ : Int)
      (m₂ : String) (y₂ : Int) (c₂ : String) (d₂ s₂ : Int) (cap : ℚ),
      (ElectricCar.construct initC m₁ y₁ c₁ d₁ s₁ cap).currentCharge =
        (ElectricCar.construct initC m₂ y₂ c₂ d₂ s₂ cap).currentCharge :=
  fun _ _ _ _ _ _ _ _ _ _ _ _ => rfl

/-- Claim C10: every accessor of the hierarchy (`getModel`, `getYear`,
`getCurrentSpeed`, `getNumberOfDoors`, `getNumberOfSeats`, `getHasSidecar`,
`getRemainingRange`, `getBatteryLevel`) is observation-only: for every
object state, calling it leaves every field of the object unchanged. -/
theorem accessors_leave_object_unchanged :
    (∀ v : Vehicle, (v.getModel).2 = v ∧ (v.getYear).2 = v ∧ (v.getCurrentSpeed).2 = v) ∧
    (∀ c : Car, (c.getModel).2 = c ∧ (c.getYear).2 = c ∧ (c.getCurrentSpeed).2 = c ∧
      (c.getNumberOfDoors).2 = c ∧ (c.getNumberOfSeats).2 = c) ∧
    (∀ m : Motorcycle, (m.getModel).2 = m ∧ (m.getYear).2 = m ∧
      (m.getCurrentSpeed).2 = m ∧ (m.getHasSidecar).2 = m) ∧
    (∀ (f g : ℚ → ℚ → ℚ) (e : ElectricCar), (e.getModel).2 = e ∧ (e.getYear).2 = e ∧
      (e.getCurrentSpeed).2 = e ∧ (e.getNumberOfDoors).2 = e ∧ (e.getNumberOfSeats).2 = e ∧
      (e.getRemainingRange f).2 = e ∧ (e.getBatteryLevel g).2 = e) :=
  ⟨fun _ => ⟨rfl, rfl, rfl⟩, fun _ => ⟨rfl, rfl, rfl, rfl, rfl⟩,
    fun _ => ⟨rfl, rfl, rfl, rfl⟩, fun _ _ _ => ⟨rfl, rfl, rfl, rfl, rfl, rfl, rfl⟩⟩

end VehicleHierarchy
